import Mathlib

/-!
Shallow embedding of the visitor-tracking middleware
(`tracking/middleware.py`, `tracking/models.py`).

Timestamps are modelled as `Int` seconds; machine-level datetime precision
below one second is abstracted away.  The persistent store is a list of
`Visitor` rows plus a list of `Pageview` rows together with the auto-id
counter used by the ORM `create` path.  Regular-expression ignore patterns
are modelled as boolean predicates on the (slash-stripped) path.
-/

namespace Tracking

/-- Primary key of a Visitor row: the session-mode path assigns the session
key explicitly via `Visitor(pk=session_key, ...)`, while the cookie-mode
`objects.create(...)` path leaves the primary key to be auto-assigned. -/
inductive PK where
| str : String → PK
| auto : Nat → PK
deriving DecidableEq

/-- One row of the `Visitor` model (`tracking/models.py`).  Character columns
without an explicit value default to the empty string, nullable columns to
`none`; `start_time` has default `timezone.now`. -/
structure Visitor where
  pk : PK
  session_key : String
  cookie_key : String
  user : Option Nat
  ip_address : String
  user_agent : Option String
  start_time : Int
  expiry_age : Option Int
  expiry_time : Option Int
  time_on_site : Option Int
  end_time : Option Int
deriving DecidableEq

/-- One row of the `Pageview` model (`tracking/models.py`). -/
structure Pageview where
  visitor_pk : PK
  url : String
  referer : Option String
  query_string : Option String
  method : String
  view_time : Int
deriving DecidableEq

/-- The persistent store: all Visitor and Pageview rows plus the counter
backing auto-assigned primary keys. -/
structure Store where
  visitors : List Visitor
  pageviews : List Pageview
  nextId : Nat
deriving DecidableEq

/-- `Visitor.objects.get(pk=k)`: the row whose primary key is `k`. -/
def Store.getByPk (s : Store) (k : PK) : Option Visitor :=
  s.visitors.find? (fun v => decide (v.pk = k))

/-- `visitor.save()` on a row whose primary key is set: update in place when a
row with that key exists, otherwise insert. -/
def Store.saveVisitor (s : Store) (v : Visitor) : Store :=
  if s.visitors.any (fun w => decide (w.pk = v.pk)) then
    { s with visitors := s.visitors.map (fun w => if w.pk = v.pk then v else w) }
  else
    { s with visitors := s.visitors ++ [v] }

/-- `Visitor.objects.create(...)`: unconditional insert with an auto-assigned
primary key. -/
def Store.createVisitor (s : Store) (mk : PK → Visitor) : Store × Visitor :=
  let v := mk (PK.auto s.nextId)
  ({ s with visitors := s.visitors ++ [v], nextId := s.nextId + 1 }, v)

/-- `Visitor.objects.filter(session_key=c).exists()`: whether some row's
`session_key` column equals `c`. -/
def sessionKeyExists (s : Store) (c : String) : Bool :=
  s.visitors.any (fun v => decide (v.session_key = c))

/-- The configuration surface of `tracking/settings.py` as imported by the
middleware.  Ignore-URL patterns are boolean matchers on the stripped path. -/
structure Config where
  TRACK_AJAX_REQUESTS : Bool
  TRACK_ANONYMOUS_USERS : Bool
  TRACK_ANONYMOUS_USERS_WITH_COOKIES : Bool
  TRACK_IGNORE_STATUS_CODES : List Nat
  TRACK_IGNORE_URLS : List (String → Bool)
  TRACK_PAGEVIEWS : Bool
  TRACK_QUERY_STRING : Bool
  TRACK_REFERER : Bool

/-- The session collaborator: `session_key` may be unset until `save()` mints
one; `minted_key` is the key that such a forced `save()` would assign. -/
structure SessionObj where
  session_key : Option String
  expiry_age : Int
  expiry_date : Int
  minted_key : String
deriving DecidableEq

/-- The authenticated-or-anonymous user attached to a request.  For a Django
user `is_authenticated` and `is_anonymous` are complementary. -/
structure UserObj where
  id : Nat
  is_anonymous : Bool
deriving DecidableEq

def UserObj.is_authenticated (u : UserObj) : Bool := !u.is_anonymous

/-- The inbound request: the session, the fields of `request.META` the
middleware reads, the one cookie it reads, and the user attribute. -/
structure Request where
  has_session : Bool
  session : SessionObj
  is_ajax : Bool
  path_info : String
  path : String
  method : String
  cookie_alnl : Option String
  http_user_agent : Option String
  http_referer : Option String
  query_string : Option String
  remote_addr : String
  user : Option UserObj

/-- The outbound response: its status code and the cookies set on it. -/
structure Response where
  status_code : Nat
  cookies : List (String × String)
deriving DecidableEq

/-- `response.set_cookie(key, value, ...)`; the max-age/expires/domain/secure
attributes are elided, only the value is modelled. -/
def Response.setCookie (r : Response) (key value : String) : Response :=
  { r with cookies := (key, value) :: r.cookies.filter (fun p => !decide (p.1 = key)) }

/-- Python truthiness of an optional string: `None` and the empty string are
falsy. -/
def strFalsy : Option String → Bool
| none => true
| some s => decide (s = "")

/-- Modelled from the spec: `get_ip_address` lives in `tracking/utils.py`,
which is not among the reviewed sources; per the spec the IP address is
captured from the request, so it reads the request's remote address. -/
def get_ip_address (r : Request) : String := r.remote_addr

/-- Modelled from the spec: `total_seconds` lives in `tracking/utils.py`,
which is not among the reviewed sources; per the spec `time_on_site` is the
elapsed time `now - start_time` in integer (truncated) seconds, so with
timestamps already at whole-second granularity it is the integer difference,
and the `int(...)` truncation in the middleware is the identity. -/
def total_seconds (delta : Int) : Int := delta

/-- `smart_text(ua, encoding='latin-1', errors='ignore')`: re-encoding is the
identity at this abstraction. -/
def smart_text (s : String) : String := s

/-- `request.path_info.lstrip('/')`. -/
def lstripSlash (s : String) : String := s.dropWhile (fun c => c == '/')

/-- `if not request.session.session_key: request.session.save()` — force the
session collaborator to mint a key when none is set. -/
def forceSessionKey (r : Request) : Request :=
  if strFalsy r.session.session_key then
    { r with session := { r.session with session_key := some r.session.minted_key } }
  else r

/-- The session key the tracked request ends up using, after the forced
session save in `process_response`. -/
def Request.tracked_session_key (r : Request) : String :=
  ((forceSessionKey r).session.session_key).getD ""

namespace VisitorTrackingMiddleware

/-- `VisitorTrackingMiddleware._should_track`: the pure tracking-policy
decision, rules in source order, first refusal wins.  (The missing-session
branch also emits a RuntimeWarning; warnings are not modelled.) -/
def should_track (cfg : Config) (user : Option UserObj) (request : Request)
    (response : Response) : Bool :=
  if !request.has_session then false
  else if request.is_ajax && !cfg.TRACK_AJAX_REQUESTS then false
  else if cfg.TRACK_IGNORE_STATUS_CODES.contains response.status_code then false
  else if user.isNone && !cfg.TRACK_ANONYMOUS_USERS then false
  else if cfg.TRACK_IGNORE_URLS.any (fun p => p (lstripSlash request.path_info)) then false
  else true

/-- `if user and not visitor.user_id: visitor.user = user` — the write-once
user linkage. -/
def apply_user (user : Option UserObj) (v : Visitor) : Visitor :=
  match user with
  | some u => if v.user.isNone then { v with user := some u.id } else v
  | none => v

/-- Refresh the session-expiry columns from the session collaborator. -/
def apply_expiry (request : Request) (v : Visitor) : Visitor :=
  { v with expiry_age := some request.session.expiry_age,
           expiry_time := some request.session.expiry_date }

/-- `if user_agent: visitor.user_agent = smart_text(...)` — latest-wins, but
only when the header is truthy. -/
def apply_user_agent (request : Request) (v : Visitor) : Visitor :=
  match request.http_user_agent with
  | some ua => if ua == "" then v else { v with user_agent := some (smart_text ua) }
  | none => v

/-- `visitor.time_on_site = int(total_seconds(visit_time - visitor.start_time))`.
The guard `if visitor.start_time:` is always true in the source: the column is
non-null (it has a model default) and datetimes are truthy in Python. -/
def apply_time_on_site (visit_time : Int) (v : Visitor) : Visitor :=
  { v with time_on_site := some (total_seconds (visit_time - v.start_time)) }

/-- A fresh row as built by `Visitor(pk=session_key, ip_address=ip_address)`:
every other column takes its model default; `start_time` defaults to the
current time, identified with the visit time at whole-second granularity. -/
def newVisitor (pk : PK) (ip_address : String) (now : Int) : Visitor :=
  { pk := pk, session_key := "", cookie_key := "", user := none,
    ip_address := ip_address, user_agent := none, start_time := now,
    expiry_age := none, expiry_time := none, time_on_site := none,
    end_time := none }

/-- The `try: get(pk=session_key) / except DoesNotExist: Visitor(...)` block
of `_refresh_visitor`. -/
def lookup_or_new (request : Request) (visit_time : Int) (store : Store) : Visitor :=
  let session_key := request.session.session_key.getD ""
  match store.getByPk (PK.str session_key) with
  | some v => v
  | none => newVisitor (PK.str session_key) (get_ip_address request) visit_time

/-- `VisitorTrackingMiddleware._refresh_visitor`: the session-mode upsert,
keyed by the primary key carrying the session key. -/
def refresh_visitor (user : Option UserObj) (request : Request)
    (visit_time : Int) (store : Store) : Store × Visitor :=
  let visitor :=
    apply_time_on_site visit_time
      (apply_user_agent request
        (apply_expiry request (apply_user user (lookup_or_new request visit_time store))))
  (store.saveVisitor visitor, visitor)

/-- `VisitorTrackingMiddleware._refresh_cookie_visitor`: the cookie-mode
path.  It returns without touching the store when the cookie is falsy, and
otherwise unconditionally inserts a fresh row with `time_on_site = 1`.  The
`user` argument is accepted but never used, mirroring the source. -/
def refresh_cookie_visitor (user : Option UserObj) (request : Request)
    (visit_time : Int) (store : Store) : Store × Option Visitor :=
  let cookie_key := request.cookie_alnl
  let session_key := request.session.session_key.getD ""
  if strFalsy cookie_key then (store, none)
  else
    let user_agent :=
      match request.http_user_agent with
      | some ua => if ua == "" then some ua else some (smart_text ua)
      | none => none
    let p := store.createVisitor (fun pk =>
      { pk := pk, session_key := session_key,
        cookie_key := cookie_key.getD "", user := none,
        ip_address := get_ip_address request, user_agent := user_agent,
        start_time := visit_time,
        expiry_age := some request.session.expiry_age,
        expiry_time := some request.session.expiry_date,
        time_on_site := some 1, end_time := none })
    (p.1, some p.2)

/-- `VisitorTrackingMiddleware._add_pageview`. -/
def add_pageview (cfg : Config) (visitor : Visitor) (request : Request)
    (view_time : Int) (store : Store) : Store :=
  let referer := if cfg.TRACK_REFERER then request.http_referer else none
  let query_string := if cfg.TRACK_QUERY_STRING then request.query_string else none
  let pv : Pageview :=
    { visitor_pk := visitor.pk, url := request.path, referer := referer,
      query_string := query_string, method := request.method,
      view_time := view_time }
  { store with pageviews := store.pageviews ++ [pv] }

/-- `if user and user.is_anonymous(): user = None` — anonymous users are
normalised to `None` before policy and ledger decisions. -/
def normalize_user (r : Request) : Option UserObj :=
  match r.user with
  | some u => if u.is_anonymous then none else some u
  | none => none

/-- `VisitorTrackingMiddleware.process_response`: policy gate, forced session
save, ledger write (cookie- or session-mode), optional pageview append.  The
store and the (unchanged) response are returned. -/
def process_response (cfg : Config) (request : Request) (response : Response)
    (now : Int) (store : Store) : Store × Response :=
  let user := normalize_user request
  if !should_track cfg user request response then (store, response)
  else
    let request := forceSessionKey request
    let sv : Store × Option Visitor :=
      if cfg.TRACK_ANONYMOUS_USERS_WITH_COOKIES then
        refresh_cookie_visitor user request now store
      else
        let p := refresh_visitor user request now store
        (p.1, some p.2)
    let store2 :=
      if cfg.TRACK_PAGEVIEWS && !cfg.TRACK_ANONYMOUS_USERS_WITH_COOKIES then
        match sv.2 with
        | some v => add_pageview cfg v request now sv.1
        | none => sv.1
      else sv.1
    (store2, response)

end VisitorTrackingMiddleware

namespace SetAndUpdateCookieMiddleware

def MAX_TRIES : Nat := 16

/-- `request.user.is_authenticated()`; an absent user attribute behaves as
anonymous. -/
def userIsAuthenticated (r : Request) : Bool :=
  match r.user with
  | some u => u.is_authenticated
  | none => false

/-- The `while not unique` loop of `SetAndUpdateCookieMiddleware.ucode`,
written with the remaining budget `remaining = MAX_TRIES - loop_num` as the
structural recursion measure: candidate number `loop_num` is drawn from the
randomness oracle `gen`, accepted when no row has it in the `session_key`
column, and once the budget is spent the loop raises a ValueError. -/
def ucodeLoop (gen : Nat → String) (store : Store) :
    Nat → Nat → Except String String
| 0, _ => Except.error "Could not generate a unique code."
| remaining + 1, loop_num =>
  let new_code := gen loop_num
  if sessionKeyExists store new_code then ucodeLoop gen store remaining (loop_num + 1)
  else Except.ok new_code

/-- `SetAndUpdateCookieMiddleware.ucode`: collision-checked token generation,
at most `MAX_TRIES` candidates. -/
def ucode (gen : Nat → String) (store : Store) : Except String String :=
  ucodeLoop gen store MAX_TRIES 0

/-- `SetAndUpdateCookieMiddleware.process_response`: read the cookie, mint a
token when it is falsy, locally replace the value by the sentinel for
authenticated users, and (re)issue the cookie only for unauthenticated users
whose value is not the sentinel. -/
def process_response (gen : Nat → String) (store : Store) (request : Request)
    (response : Response) : Except String Response :=
  let key := "ask_for_login_or_newsletter"
  let value0 := request.cookie_alnl
  let valueE : Except String String :=
    if strFalsy value0 then ucode gen store else Except.ok (value0.getD "")
  match valueE with
  | Except.error e => Except.error e
  | Except.ok value1 =>
    let value := if userIsAuthenticated request then "user_registered" else value1
    if !userIsAuthenticated request && !decide (value = "user_registered") then
      Except.ok (response.setCookie key value)
    else
      Except.ok response

end SetAndUpdateCookieMiddleware

/-! Concrete fixtures used by witnesses and counterexamples. -/

/-- A permissive session-mode configuration. -/
def cfgSession : Config :=
  { TRACK_AJAX_REQUESTS := false, TRACK_ANONYMOUS_USERS := true,
    TRACK_ANONYMOUS_USERS_WITH_COOKIES := false,
    TRACK_IGNORE_STATUS_CODES := [], TRACK_IGNORE_URLS := [],
    TRACK_PAGEVIEWS := true, TRACK_QUERY_STRING := true, TRACK_REFERER := true }

/-- The same configuration with cookie-mode tracking switched on. -/
def cfgCookie : Config := { cfgSession with TRACK_ANONYMOUS_USERS_WITH_COOKIES := true }

/-- The same configuration with ajax tracking relevant: ajax requests refused. -/
def cfgNoAjax : Config := cfgSession

def sessW : SessionObj :=
  { session_key := some "sess1", expiry_age := 3600, expiry_date := 5000,
    minted_key := "minted" }

def reqBase : Request :=
  { has_session := true, session := sessW, is_ajax := false,
    path_info := "/page", path := "/page", method := "GET",
    cookie_alnl := none, http_user_agent := some "UA", http_referer := none,
    query_string := none, remote_addr := "1.2.3.4", user := none }

def reqTok : Request := { reqBase with cookie_alnl := some "tok" }

def reqAjax : Request := { reqBase with is_ajax := true }

def uAuth : UserObj := { id := 7, is_anonymous := false }

def reqAuthCk : Request := { reqBase with cookie_alnl := some "abc", user := some uAuth }

/-- A session-mode Visitor row keyed by session key "sess1", as the
session-mode path creates them (the `session_key` column stays empty). -/
def vSess : Visitor :=
  { pk := PK.str "sess1", session_key := "", cookie_key := "", user := none,
    ip_address := "1.2.3.4", user_agent := none, start_time := 50,
    expiry_age := none, expiry_time := none, time_on_site := some 0,
    end_time := none }

def vSessUser : Visitor := { vSess with user := some 3 }

/-- A cookie-mode Visitor row: identity cookie token "tok" in the
`cookie_key` column, the transport session key in `session_key`. -/
def vCk : Visitor :=
  { pk := PK.auto 0, session_key := "sessA", cookie_key := "tok", user := none,
    ip_address := "9.9.9.9", user_agent := none, start_time := 10,
    expiry_age := none, expiry_time := none, time_on_site := some 1,
    end_time := none }

def storeEmpty : Store := { visitors := [], pageviews := [], nextId := 0 }

def storeSess : Store := { visitors := [vSess], pageviews := [], nextId := 0 }

def storeSessUser : Store := { visitors := [vSessUser], pageviews := [], nextId := 0 }

def storeCk1 : Store := { visitors := [vCk], pageviews := [], nextId := 1 }

/-- A store whose only row has "a" in the `session_key` column. -/
def storeA : Store :=
  { visitors := [{ vCk with session_key := "a", cookie_key := "" }],
    pageviews := [], nextId := 1 }

def respOk : Response := { status_code := 200, cookies := [] }

/-- A randomness oracle that always produces the same token. -/
def genTok : Nat → String := fun _ => "tok"

/-- A randomness oracle whose first candidate is "a" and later ones "b". -/
def genAB : Nat → String := fun i => if i = 0 then "a" else "b"

/-- The row the cookie-mode path creates for `reqTok` at time 100 on an empty
store. -/
def vCkNew : Visitor :=
  { pk := PK.auto 0, session_key := "sess1", cookie_key := "tok", user := none,
    ip_address := "1.2.3.4", user_agent := some "UA", start_time := 100,
    expiry_age := some 3600, expiry_time := some 5000, time_on_site := some 1,
    end_time := none }

/-! Helper lemmas about the store primitives. -/

lemma countP_map_replace (l : List Visitor) (v : Visitor) (k : PK) (hv : v.pk = k) :
    (l.map (fun w => if w.pk = v.pk then v else w)).countP (fun w => decide (w.pk = k)) =
      l.countP (fun w => decide (w.pk = k)) := by
  induction l with
  | nil => rfl
  | cons a l ih =>
    simp only [List.map_cons, List.countP_cons]
    rw [ih]
    by_cases h : a.pk = v.pk
    · simp [h, hv]
    · simp [h]

lemma saveVisitor_length (s : Store) (v : Visitor)
    (h : s.visitors.any (fun w => decide (w.pk = v.pk)) = true) :
    (s.saveVisitor v).visitors.length = s.visitors.length := by
  unfold Store.saveVisitor
  rw [if_pos h]
  simp

lemma saveVisitor_countP (s : Store) (v : Visitor) (k : PK) (hv : v.pk = k)
    (h : s.visitors.any (fun w => decide (w.pk = v.pk)) = true) :
    (s.saveVisitor v).visitors.countP (fun w => decide (w.pk = k)) =
      s.visitors.countP (fun w => decide (w.pk = k)) := by
  unfold Store.saveVisitor
  rw [if_pos h]
  exact countP_map_replace s.visitors v k hv

lemma forceSessionKey_cookie (r : Request) :
    (forceSessionKey r).cookie_alnl = r.cookie_alnl := by
  unfold forceSessionKey
  split <;> rfl

/-! Helper lemmas about the field-update policies of the session-mode upsert. -/

namespace VisitorTrackingMiddleware

lemma apply_user_none (v : Visitor) : apply_user none v = v := rfl

lemma apply_user_some_set (x : UserObj) (v : Visitor) (h : v.user = none) :
    apply_user (some x) v = { v with user := some x.id } := by
  unfold apply_user
  simp [h]

lemma apply_user_some_keep (x : UserObj) (v : Visitor) (u : Nat) (h : v.user = some u) :
    apply_user (some x) v = v := by
  unfold apply_user
  simp [h]

lemma apply_user_start_time (u : Option UserObj) (v : Visitor) :
    (apply_user u v).start_time = v.start_time := by
  unfold apply_user
  split <;> first | rfl | (split <;> rfl)

lemma apply_user_pk (u : Option UserObj) (v : Visitor) :
    (apply_user u v).pk = v.pk := by
  unfold apply_user
  split <;> first | rfl | (split <;> rfl)

lemma apply_user_agent_start_time (r : Request) (v : Visitor) :
    (apply_user_agent r v).start_time = v.start_time := by
  unfold apply_user_agent
  split <;> first | rfl | (split <;> rfl)

lemma apply_user_agent_pk (r : Request) (v : Visitor) :
    (apply_user_agent r v).pk = v.pk := by
  unfold apply_user_agent
  split <;> first | rfl | (split <;> rfl)

lemma apply_user_agent_user (r : Request) (v : Visitor) :
    (apply_user_agent r v).user = v.user := by
  unfold apply_user_agent
  split <;> first | rfl | (split <;> rfl)

lemma apply_expiry_start_time (r : Request) (v : Visitor) :
    (apply_expiry r v).start_time = v.start_time := rfl

lemma apply_expiry_pk (r : Request) (v : Visitor) :
    (apply_expiry r v).pk = v.pk := rfl

lemma apply_expiry_user (r : Request) (v : Visitor) :
    (apply_expiry r v).user = v.user := rfl

lemma apply_time_on_site_start_time (t : Int) (v : Visitor) :
    (apply_time_on_site t v).start_time = v.start_time := rfl

lemma apply_time_on_site_pk (t : Int) (v : Visitor) :
    (apply_time_on_site t v).pk = v.pk := rfl

lemma apply_time_on_site_user (t : Int) (v : Visitor) :
    (apply_time_on_site t v).user = v.user := rfl

lemma apply_time_on_site_tos (t : Int) (v : Visitor) :
    (apply_time_on_site t v).time_on_site = some (t - v.start_time) := rfl

lemma refresh_visitor_snd (u : Option UserObj) (r : Request) (t : Int) (s : Store) :
    (refresh_visitor u r t s).2 =
      apply_time_on_site t
        (apply_user_agent r (apply_expiry r (apply_user u (lookup_or_new r t s)))) := rfl

lemma refresh_visitor_fst (u : Option UserObj) (r : Request) (t : Int) (s : Store) :
    (refresh_visitor u r t s).1 = s.saveVisitor (refresh_visitor u r t s).2 := rfl

lemma lookup_or_new_of_get (r : Request) (t : Int) (s : Store) (v : Visitor)
    (h : s.getByPk (PK.str (r.session.session_key.getD "")) = some v) :
    lookup_or_new r t s = v := by
  simp only [lookup_or_new, h]

lemma lookup_or_new_pk (r : Request) (t : Int) (s : Store) :
    (lookup_or_new r t s).pk = PK.str (r.session.session_key.getD "") := by
  simp only [lookup_or_new]
  cases hf : s.getByPk (PK.str (r.session.session_key.getD "")) with
  | none => rfl
  | some v =>
    unfold Store.getByPk at hf
    have hp := List.find?_some hf
    simp only [decide_eq_true_eq] at hp
    exact hp

lemma refresh_visitor_snd_pk (u : Option UserObj) (r : Request) (t : Int) (s : Store) :
    (refresh_visitor u r t s).2.pk = PK.str (r.session.session_key.getD "") := by
  rw [refresh_visitor_snd, apply_time_on_site_pk, apply_user_agent_pk,
      apply_expiry_pk, apply_user_pk, lookup_or_new_pk]

lemma add_pageview_visitors (cfg : Config) (v : Visitor) (r : Request) (t : Int) (s : Store) :
    (add_pageview cfg v r t s).visitors = s.visitors := rfl

lemma refresh_cookie_visitor_falsy (u : Option UserObj) (r : Request) (t : Int) (s : Store)
    (h : strFalsy r.cookie_alnl = true) :
    refresh_cookie_visitor u r t s = (s, none) := by
  unfold refresh_cookie_visitor
  simp [h]

lemma refresh_cookie_visitor_pageviews (u : Option UserObj) (r : Request) (t : Int) (s : Store) :
    (refresh_cookie_visitor u r t s).1.pageviews = s.pageviews := by
  unfold refresh_cookie_visitor
  by_cases h : strFalsy r.cookie_alnl <;> simp [h, Store.createVisitor]

lemma refresh_cookie_visitor_mem (u : Option UserObj) (r : Request) (t : Int) (s : Store)
    (v : Visitor) (hv : v ∈ (refresh_cookie_visitor u r t s).1.visitors) :
    v ∈ s.visitors ∨ v.time_on_site = some 1 := by
  unfold refresh_cookie_visitor at hv
  by_cases h : strFalsy r.cookie_alnl
  · simp [h] at hv
    exact Or.inl hv
  · simp [h, Store.createVisitor] at hv
    rcases hv with hv | hv
    · exact Or.inl hv
    · right
      rw [hv]

lemma process_response_no_track (cfg : Config) (r : Request) (resp : Response)
    (now : Int) (s : Store)
    (h : should_track cfg (normalize_user r) r resp = false) :
    process_response cfg r resp now s = (s, resp) := by
  unfold process_response
  simp [h]

lemma process_response_track_cookie (cfg : Config) (r : Request) (resp : Response)
    (now : Int) (s : Store)
    (hmode : cfg.TRACK_ANONYMOUS_USERS_WITH_COOKIES = true)
    (h : should_track cfg (normalize_user r) r resp = true) :
    process_response cfg r resp now s =
      ((refresh_cookie_visitor (normalize_user r) (forceSessionKey r) now s).1, resp) := by
  unfold process_response
  simp [h, hmode]

lemma process_response_track_session_visitors (cfg : Config) (r : Request)
    (resp : Response) (now : Int) (s : Store)
    (hmode : cfg.TRACK_ANONYMOUS_USERS_WITH_COOKIES = false)
    (h : should_track cfg (normalize_user r) r resp = true) :
    (process_response cfg r resp now s).1.visitors =
      ((refresh_visitor (normalize_user r) (forceSessionKey r) now s).1).visitors := by
  unfold process_response
  simp only [h, hmode, Bool.not_true, Bool.not_false, Bool.and_true, Bool.false_eq_true,
    if_false, if_true]
  by_cases hpv : cfg.TRACK_PAGEVIEWS <;> simp [hpv, add_pageview_visitors]

end VisitorTrackingMiddleware

/-! Helper lemmas about the collision-checked token generator. -/

namespace SetAndUpdateCookieMiddleware

lemma ucodeLoop_ok_not_exists (gen : Nat → String) (store : Store) :
    ∀ remaining loop_num t, ucodeLoop gen store remaining loop_num = Except.ok t →
      sessionKeyExists store t = false := by
  intro remaining
  induction remaining with
  | zero =>
    intro n t h
    exact absurd h (by simp [ucodeLoop])
  | succ k ih =>
    intro n t h
    rw [ucodeLoop] at h
    cases he : sessionKeyExists store (gen n) with
    | true =>
      simp only [he, if_true] at h
      exact ih (n + 1) t h
    | false =>
      simp [he] at h
      rw [← h]
      exact he

lemma ucodeLoop_error_of_all (gen : Nat → String) (store : Store) :
    ∀ remaining loop_num,
      (∀ i, loop_num ≤ i → i < loop_num + remaining →
        sessionKeyExists store (gen i) = true) →
      ucodeLoop gen store remaining loop_num =
        Except.error "Could not generate a unique code." := by
  intro remaining
  induction remaining with
  | zero => intro n _; rfl
  | succ k ih =>
    intro n hall
    rw [ucodeLoop]
    have hn : sessionKeyExists store (gen n) = true := hall n (le_refl n) (by omega)
    simp only [hn, if_true]
    exact ih (n + 1) (fun i h1 h2 => hall i (by omega) (by omega))

lemma ucodeLoop_all_of_error (gen : Nat → String) (store : Store) :
    ∀ remaining loop_num e, ucodeLoop gen store remaining loop_num = Except.error e →
      ∀ i, loop_num ≤ i → i < loop_num + remaining →
        sessionKeyExists store (gen i) = true := by
  intro remaining
  induction remaining with
  | zero => intro n e _ i h1 h2; omega
  | succ k ih =>
    intro n e h i h1 h2
    rw [ucodeLoop] at h
    cases hn : sessionKeyExists store (gen n) with
    | true =>
      simp only [hn, if_true] at h
      by_cases hi : i = n
      · rw [hi]; exact hn
      · exact ih (n + 1) e h i (by omega) (by omega)
    | false =>
      simp only [hn, if_false] at h
      exact absurd h (by simp)

lemma ucodeLoop_ok_first (gen : Nat → String) (store : Store) :
    ∀ remaining loop_num i, loop_num ≤ i → i < loop_num + remaining →
      sessionKeyExists store (gen i) = false →
      (∀ j, loop_num ≤ j → j < i → sessionKeyExists store (gen j) = true) →
      ucodeLoop gen store remaining loop_num = Except.ok (gen i) := by
  intro remaining
  induction remaining with
  | zero =>
    intro n i h1 h2 _ _
    exact absurd h2 (by omega)
  | succ k ih =>
    intro n i h1 h2 hfalse hprev
    rw [ucodeLoop]
    by_cases hi : i = n
    · rw [← hi]
      simp [hfalse]
    · have hn : sessionKeyExists store (gen n) = true := hprev n (le_refl n) (by omega)
      simp only [hn, if_true]
      exact ih (n + 1) i (by omega) (by omega) hfalse (fun j hj1 hj2 => hprev j (by omega) hj2)

end SetAndUpdateCookieMiddleware

section ClaimTheorems

open VisitorTrackingMiddleware

/-- Claim C3: for every request/response pair on which the tracking-policy
filter returns false, processing the response creates and modifies no Visitor
row and no Pageview row, and the response is returned unchanged. -/
theorem c3_no_track_no_writes (cfg : Config) (request : Request)
    (response : Response) (now : Int) (store : Store)
    (h : should_track cfg (normalize_user request) request response = false) :
    process_response cfg request response now store = (store, response) := by
  unfold process_response
  simp [h]

/-- Witness for C3: an ajax request with ajax tracking disabled is refused by
the policy and leaves the store untouched. -/
theorem c3_no_track_no_writes_witness :
    process_response cfgSession reqAjax respOk 100 storeSess = (storeSess, respOk) :=
  c3_no_track_no_writes cfgSession reqAjax respOk 100 storeSess (by decide)

/-- Claim C2: on a repeat sighting of an existing session-mode Visitor, the
upsert leaves `start_time` unchanged and sets `time_on_site` to
`max 0 (now - start_time)` in whole seconds (so it is non-negative and
independent of the expiry settings). -/
theorem c2_repeat_sighting_time (user : Option UserObj) (request : Request)
    (now : Int) (store : Store) (v : Visitor)
    (hfind : store.getByPk (PK.str (request.session.session_key.getD "")) = some v)
    (hle : v.start_time ≤ now) :
    (refresh_visitor user request now store).2.start_time = v.start_time ∧
    (refresh_visitor user request now store).2.time_on_site =
      some (max 0 (now - v.start_time)) := by
  rw [refresh_visitor_snd, lookup_or_new_of_get request now store v hfind]
  constructor
  · rw [apply_time_on_site_start_time, apply_user_agent_start_time,
        apply_expiry_start_time, apply_user_start_time]
  · rw [apply_time_on_site_tos, apply_user_agent_start_time,
        apply_expiry_start_time, apply_user_start_time,
        max_eq_right (by omega : (0 : Int) ≤ now - v.start_time)]

/-- Witness for C2: a repeat sighting at time 80 of a Visitor that started at
time 50 keeps `start_time = 50` and records `time_on_site = 30`. -/
theorem c2_repeat_sighting_time_witness :
    (refresh_visitor none reqBase 80 storeSess).2.start_time = vSess.start_time ∧
    (refresh_visitor none reqBase 80 storeSess).2.time_on_site =
      some (max 0 (80 - vSess.start_time)) :=
  c2_repeat_sighting_time none reqBase 80 storeSess vSess (by decide) (by decide)

/-- Claim C4: the Visitor's user reference is write-once in the session-mode
upsert: once set it is never changed, whatever the later candidate user is;
and while unset it becomes exactly the candidate user of the sighting, so it
is first set by the first sighting that carries an authenticated user. -/
theorem c4_user_write_once (user : Option UserObj) (request : Request)
    (now : Int) (store : Store) (v : Visitor)
    (hfind : store.getByPk (PK.str (request.session.session_key.getD "")) = some v) :
    (∀ u, v.user = some u → (refresh_visitor user request now store).2.user = some u) ∧
    (v.user = none →
      (refresh_visitor user request now store).2.user = user.map UserObj.id) := by
  rw [refresh_visitor_snd, lookup_or_new_of_get request now store v hfind]
  constructor
  · intro u hu
    rw [apply_time_on_site_user, apply_user_agent_user, apply_expiry_user]
    cases user with
    | none => rw [apply_user_none]; exact hu
    | some x => rw [apply_user_some_keep x v u hu]; exact hu
  · intro hu
    rw [apply_time_on_site_user, apply_user_agent_user, apply_expiry_user]
    cases user with
    | none => rw [apply_user_none]; simpa using hu
    | some x => rw [apply_user_some_set x v hu]; rfl

/-- Witness for C4: a later authenticated sighting does not overwrite an
already-linked user. -/
theorem c4_user_write_once_witness :
    (refresh_visitor (some uAuth) reqBase 80 storeSessUser).2.user = some 3 :=
  (c4_user_write_once (some uAuth) reqBase 80 storeSessUser vSessUser
    (by decide)).1 3 (by decide)

/-- Claim C10: the cookie-mode write path ignores the candidate user
entirely, and every Visitor row it creates has its user reference unset. -/
theorem c10_cookie_mode_ignores_user (u₁ u₂ : Option UserObj) (r : Request)
    (t : Int) (s : Store) :
    refresh_cookie_visitor u₁ r t s = refresh_cookie_visitor u₂ r t s ∧
    ∀ v, v ∈ (refresh_cookie_visitor u₁ r t s).1.visitors →
      v ∈ s.visitors ∨ v.user = none := by
  constructor
  · rfl
  · intro v hv
    unfold refresh_cookie_visitor at hv
    by_cases hck : strFalsy r.cookie_alnl
    · simp [hck] at hv
      exact Or.inl hv
    · simp [hck, Store.createVisitor] at hv
      rcases hv with hv | hv
      · exact Or.inl hv
      · right
        rw [hv]

/-- Witness for C10: the row created for an authenticated cookie-mode
sighting still has no user reference. -/
theorem c10_cookie_mode_ignores_user_witness :
    vCkNew ∈ storeEmpty.visitors ∨ vCkNew.user = none :=
  (c10_cookie_mode_ignores_user (some uAuth) none reqTok 100 storeEmpty).2
    vCkNew (by decide)

/-- Counterexample for C1: in cookie mode, a qualifying request whose cookie
token "tok" already has a Visitor row does not update that row — it inserts a
second one, so two rows share the identity key. -/
theorem c1_counterexample :
    storeCk1.visitors.countP (fun v => decide (v.cookie_key = "tok")) = 1 ∧
    should_track cfgCookie (normalize_user reqTok) reqTok respOk = true ∧
    (process_response cfgCookie reqTok respOk 100 storeCk1).1.visitors.countP
      (fun v => decide (v.cookie_key = "tok")) = 2 := by
  refine ⟨rfl, rfl, ?_⟩
  decide

/-- Claim C1 (amended): in session mode, processing a qualifying request
whose identity key already has a Visitor row updates that row in place: the
total number of Visitor rows, and the number of rows with that key, are
unchanged.  (In cookie mode every sighting carrying a cookie token inserts a
fresh row, so a key can acquire several rows.) -/
theorem c1_session_mode_single_row (cfg : Config) (request : Request)
    (response : Response) (now : Int) (store : Store)
    (hmode : cfg.TRACK_ANONYMOUS_USERS_WITH_COOKIES = false)
    (hexists : store.visitors.any
      (fun w => decide (w.pk = PK.str request.tracked_session_key)) = true) :
    (process_response cfg request response now store).1.visitors.length =
      store.visitors.length ∧
    (process_response cfg request response now store).1.visitors.countP
        (fun w => decide (w.pk = PK.str request.tracked_session_key)) =
      store.visitors.countP
        (fun w => decide (w.pk = PK.str request.tracked_session_key)) := by
  cases h : should_track cfg (normalize_user request) request response with
  | false =>
    rw [process_response_no_track cfg request response now store h]
    exact ⟨rfl, rfl⟩
  | true =>
    rw [process_response_track_session_visitors cfg request response now store hmode h,
        refresh_visitor_fst]
    constructor
    · apply saveVisitor_length
      simp only [refresh_visitor_snd_pk]
      exact hexists
    · apply saveVisitor_countP
      · exact refresh_visitor_snd_pk _ _ _ _
      · simp only [refresh_visitor_snd_pk]
        exact hexists

/-- Witness for C1: a repeat session-mode sighting of key "sess1" leaves one
row in the store and exactly one row for that key. -/
theorem c1_session_mode_single_row_witness :
    (process_response cfgSession reqBase respOk 100 storeSess).1.visitors.length =
      storeSess.visitors.length ∧
    (process_response cfgSession reqBase respOk 100 storeSess).1.visitors.countP
        (fun w => decide (w.pk = PK.str reqBase.tracked_session_key)) =
      storeSess.visitors.countP
        (fun w => decide (w.pk = PK.str reqBase.tracked_session_key)) :=
  c1_session_mode_single_row cfgSession reqBase respOk 100 storeSess rfl (by decide)

/-- Counterexample for C5: in cookie mode a qualifying request that carries
no cookie token is dropped by the visitor-tracking middleware — no Visitor
row is recorded at all, instead of being recorded under a fresh token. -/
theorem c5_counterexample :
    should_track cfgCookie (normalize_user reqBase) reqBase respOk = true ∧
    reqBase.cookie_alnl = none ∧
    (process_response cfgCookie reqBase respOk 100 storeEmpty).1.visitors = [] := by
  refine ⟨rfl, rfl, ?_⟩
  decide

/-- Claim C5 (amended): in cookie mode, when the request carries no cookie
token the tracking middleware records nothing for that sighting (the store is
unchanged); the separate cookie-issuing middleware generates a fresh token
via the collision-checked loop and sets it on the response, so the identity
is only usable from the next request onward. -/
theorem c5_missing_cookie_drops_sighting (cfg : Config) (request : Request)
    (response : Response) (now : Int) (store : Store) (gen : Nat → String)
    (hmode : cfg.TRACK_ANONYMOUS_USERS_WITH_COOKIES = true)
    (hck : strFalsy request.cookie_alnl = true) :
    (process_response cfg request response now store).1 = store ∧
    (∀ t, SetAndUpdateCookieMiddleware.userIsAuthenticated request = false →
      SetAndUpdateCookieMiddleware.ucode gen store = Except.ok t →
      t ≠ "user_registered" →
      SetAndUpdateCookieMiddleware.process_response gen store request response =
        Except.ok (response.setCookie "ask_for_login_or_newsletter" t)) := by
  constructor
  · cases h : should_track cfg (normalize_user request) request response with
    | false => rw [process_response_no_track cfg request response now store h]
    | true =>
      rw [process_response_track_cookie cfg request response now store hmode h,
          refresh_cookie_visitor_falsy _ _ _ _ (by rw [forceSessionKey_cookie]; exact hck)]
  · intro t hauth hok hneq
    unfold SetAndUpdateCookieMiddleware.process_response
    simp [hck, hok, hauth, hneq]

/-- Witness for C5: a cookie-less qualifying request leaves the store
untouched, while the cookie middleware sets the freshly generated token. -/
theorem c5_missing_cookie_drops_sighting_witness :
    (process_response cfgCookie reqBase respOk 100 storeEmpty).1 = storeEmpty ∧
    SetAndUpdateCookieMiddleware.process_response genAB storeEmpty reqBase respOk =
      Except.ok (respOk.setCookie "ask_for_login_or_newsletter" "a") :=
  ⟨(c5_missing_cookie_drops_sighting cfgCookie reqBase respOk 100 storeEmpty genAB
      rfl rfl).1,
   (c5_missing_cookie_drops_sighting cfgCookie reqBase respOk 100 storeEmpty genAB
      rfl rfl).2 "a" rfl rfl (by decide)⟩

/-- Counterexample for C6: for an authenticated user whose browser sent
cookie value "abc", the middleware sets no cookie at all on the response —
the browser's value is not overwritten with the sentinel. -/
theorem c6_counterexample :
    SetAndUpdateCookieMiddleware.userIsAuthenticated reqAuthCk = true ∧
    reqAuthCk.cookie_alnl = some "abc" ∧
    SetAndUpdateCookieMiddleware.process_response genAB storeEmpty reqAuthCk respOk =
      Except.ok respOk ∧
    respOk.cookies = [] := ⟨rfl, rfl, rfl, rfl⟩

/-- Claim C6 (amended): when the current user is authenticated the cookie
middleware issues no cookie at all: the sentinel value is computed only in a
local variable and never written to the response, so the browser's existing
cookie value is left unchanged. -/
theorem c6_authenticated_no_cookie_write (gen : Nat → String) (store : Store)
    (request : Request) (response : Response)
    (hauth : SetAndUpdateCookieMiddleware.userIsAuthenticated request = true) :
    ∀ r, SetAndUpdateCookieMiddleware.process_response gen store request response =
      Except.ok r → r = response := by
  intro r h
  unfold SetAndUpdateCookieMiddleware.process_response at h
  cases hv : (if strFalsy request.cookie_alnl then
      SetAndUpdateCookieMiddleware.ucode gen store
    else Except.ok (request.cookie_alnl.getD "")) with
  | error e =>
    simp only [hv] at h
    exact absurd h (by simp)
  | ok value =>
    simp only [hv] at h
    simp [hauth] at h
    exact h.symm

/-- Witness for C6: the authenticated request of the counterexample passes
through unchanged. -/
theorem c6_authenticated_no_cookie_write_witness :
    SetAndUpdateCookieMiddleware.process_response genAB storeEmpty reqAuthCk respOk =
      Except.ok respOk ∧ respOk = respOk :=
  ⟨rfl, c6_authenticated_no_cookie_write genAB storeEmpty reqAuthCk respOk rfl
    respOk rfl⟩

/-- Counterexample for C7: the generator checks candidates against the
`session_key` column only, so it can return a token that is a current
cookie-mode identity key (a `cookie_key` value). -/
theorem c7_counterexample :
    SetAndUpdateCookieMiddleware.ucode genTok storeCk1 = Except.ok "tok" ∧
    storeCk1.visitors.any (fun v => decide (v.cookie_key = "tok")) = true :=
  ⟨rfl, rfl⟩

/-- Claim C7 (amended): every token returned by the collision-checked
generator is absent from the `session_key` column values of the current
Visitor rows at the time of the check; the check is not against the
`cookie_key` column that holds cookie-mode identity keys. -/
theorem c7_token_fresh_in_session_key_column (gen : Nat → String) (store : Store)
    (t : String) (h : SetAndUpdateCookieMiddleware.ucode gen store = Except.ok t) :
    sessionKeyExists store t = false :=
  SetAndUpdateCookieMiddleware.ucodeLoop_ok_not_exists gen store
    SetAndUpdateCookieMiddleware.MAX_TRIES 0 t h

/-- Witness for C7: the token "tok" accepted over `storeCk1` does not occur
in the `session_key` column. -/
theorem c7_token_fresh_in_session_key_column_witness :
    sessionKeyExists storeCk1 "tok" = false :=
  c7_token_fresh_in_session_key_column genTok storeCk1 "tok" rfl

/-- Claim C8: the generator raises a generation error if and only if all 16
candidate tokens collide with existing keys; when the first non-colliding
candidate appears within the first 16 attempts, that candidate is returned
and no error is raised. -/
theorem c8_ucode_error_iff_sixteen_collisions (gen : Nat → String) (store : Store) :
    ((∃ e, SetAndUpdateCookieMiddleware.ucode gen store = Except.error e) ↔
      ∀ i, i < 16 → sessionKeyExists store (gen i) = true) ∧
    (∀ i, i < 16 → sessionKeyExists store (gen i) = false →
      (∀ j, j < i → sessionKeyExists store (gen j) = true) →
      SetAndUpdateCookieMiddleware.ucode gen store = Except.ok (gen i)) := by
  constructor
  · constructor
    · rintro ⟨e, he⟩ i hi
      exact SetAndUpdateCookieMiddleware.ucodeLoop_all_of_error gen store
        SetAndUpdateCookieMiddleware.MAX_TRIES 0 e he i (Nat.zero_le i)
        (by simpa [SetAndUpdateCookieMiddleware.MAX_TRIES] using hi)
    · intro hall
      exact ⟨_, SetAndUpdateCookieMiddleware.ucodeLoop_error_of_all gen store
        SetAndUpdateCookieMiddleware.MAX_TRIES 0
        (fun i _ h2 => hall i
          (by simpa [SetAndUpdateCookieMiddleware.MAX_TRIES] using h2))⟩
  · intro i hi hfalse hprev
    exact SetAndUpdateCookieMiddleware.ucodeLoop_ok_first gen store
      SetAndUpdateCookieMiddleware.MAX_TRIES 0 i (Nat.zero_le i)
      (by simpa [SetAndUpdateCookieMiddleware.MAX_TRIES] using hi) hfalse
      (fun j _ hj => hprev j hj)

/-- Witness for C8: over `storeA` the first candidate of `genAB` collides and
the second is accepted. -/
theorem c8_ucode_error_iff_sixteen_collisions_witness :
    SetAndUpdateCookieMiddleware.ucode genAB storeA = Except.ok (genAB 1) :=
  (c8_ucode_error_iff_sixteen_collisions genAB storeA).2 1 (by decide) (by decide)
    (by decide)

/-- Claim C9: when cookie mode is active, processing a tracked response never
creates a Pageview row (whatever the pageview flag says), and every Visitor
row inserted on that path carries the fixed placeholder `time_on_site = 1`. -/
theorem c9_cookie_mode_no_pageview_placeholder (cfg : Config) (request : Request)
    (response : Response) (now : Int) (store : Store)
    (hmode : cfg.TRACK_ANONYMOUS_USERS_WITH_COOKIES = true) :
    (process_response cfg request response now store).1.pageviews = store.pageviews ∧
    ∀ v, v ∈ (process_response cfg request response now store).1.visitors →
      v ∈ store.visitors ∨ v.time_on_site = some 1 := by
  cases h : should_track cfg (normalize_user request) request response with
  | false =>
    rw [process_response_no_track cfg request response now store h]
    exact ⟨rfl, fun v hv => Or.inl hv⟩
  | true =>
    rw [process_response_track_cookie cfg request response now store hmode h]
    exact ⟨refresh_cookie_visitor_pageviews _ _ _ _,
      fun v hv => refresh_cookie_visitor_mem _ _ _ _ v hv⟩

/-- Witness for C9: the cookie-mode sighting of `reqTok` adds no pageview
even though `TRACK_PAGEVIEWS` is on, and the row it inserts has
`time_on_site = 1`. -/
theorem c9_cookie_mode_no_pageview_placeholder_witness :
    (process_response cfgCookie reqTok respOk 100 storeEmpty).1.pageviews =
      storeEmpty.pageviews ∧
    (vCkNew ∈ storeEmpty.visitors ∨ vCkNew.time_on_site = some 1) :=
  ⟨(c9_cookie_mode_no_pageview_placeholder cfgCookie reqTok respOk 100 storeEmpty
      rfl).1,
   (c9_cookie_mode_no_pageview_placeholder cfgCookie reqTok respOk 100 storeEmpty
      rfl).2 vCkNew (by decide)⟩

end ClaimTheorems

end Tracking
